import Mathlib

/-!
Verification of the SVDiscordBot scrim-registration core against its
specification.  The development shallowly embeds the SQLite database
state of the bot (tables `scrims`, `teams`, `members` from src/bot.py
lines 20-47) and the database effect of each handler of src/bot.py and
of the transaction wrapper of src/database.py, as those functions
behave at runtime.  Discord-side effects (roles, nicknames, embeds,
messages) live outside the store and are not part of the state.

Two Python-level defects of the source dominate its runtime behaviour
and are modelled faithfully here:

1. `DatabaseManager.transaction` (database.py line 47) lacks the
   `@asynccontextmanager` decorator that its sibling `get_connection`
   (line 11) has.  Being an `async def` containing `yield`, calling
   `db.transaction()` therefore returns an async generator, which does
   not implement the async context-manager protocol — so every
   `async with db.transaction() as cursor:` in bot.py (lines 74, 81,
   93, 469, 505) raises `TypeError` before `BEGIN TRANSACTION` or any
   statement of the block runs.  The commit/rollback/re-raise protocol
   written in the wrapper's body (database.py 50-56) is dead code.
   The blocks guarded by the wrapper are still embedded, as separate
   `..._body` definitions marked as dead code, so they can be compared
   with the source text.

2. `create_team_logic` tests `get_team_id(team_name) is not None`
   without awaiting (bot.py line 318): `get_team_id` is async, so the
   un-awaited call yields a coroutine object, which is never `None`,
   and the name-taken branch is taken for every submitted name; the
   `add_team(...)` call on line 323 is likewise not awaited, so its
   coroutine never starts and no row is ever inserted.

The store itself is the persistent file `scrim_bot.db`; the handlers
run against whatever rows that file holds (rows may predate the
current code or be written externally), so the handlers' effects are
stated over arbitrary store contents.

In the source a team's slot registrations are stored as extra rows of
the `teams` table: signing team `T` up for day `d` would insert a row
`(team_name = T, scrim_time = d, leader_id = l)` (bot.py lines
513-516) while the base row of a team carries `scrim_time = ""`
(bot.py line 323).  Hence the registration count of a slot period is
the number of `teams` rows whose `scrim_time` equals that period (the
query at bot.py lines 507-511).
-/

/-- Exception raised by the Python runtime in the embedded fragment:
`async with` applied to `db.transaction()`, which is an async
generator and not an async context manager. -/
inductive PyError
  | typeError
  deriving DecidableEq

/-- A row of the `teams` table (bot.py lines 26-34): surrogate id,
team name, scrim time (empty string on a base row, a day string on a
registration row) and the id of the leader. -/
structure TeamRow where
  id : Nat
  team_name : String
  scrim_time : String
  leader_id : Nat
  deriving DecidableEq

/-- A row of the `members` table (bot.py lines 35-42). -/
structure MemberRow where
  id : Nat
  team_id : Nat
  member_name : String
  deriving DecidableEq

/-- The bot's database: the three tables plus the AUTOINCREMENT
counters of `teams` and `members`.  The unused `id` column of `scrims`
is omitted; a `scrims` row is just its `time_period` value. -/
structure DBState where
  scrims : List String
  teams : List TeamRow
  members : List MemberRow
  nextTeamId : Nat
  nextMemberId : Nat
  deriving DecidableEq

/-- A freshly initialised database: all tables empty. -/
def emptyDB : DBState := ⟨[], [], [], 1, 1⟩

/-- `SELECT COUNT(*) FROM teams WHERE scrim_time = ?` (bot.py lines
470-474 and 507-511): the committed registration count of a slot
period. -/
def regCount (s : DBState) (p : String) : Nat :=
  (s.teams.filter (fun t => t.scrim_time == p)).length

/-- `SELECT COUNT(*) FROM members WHERE team_id = ?` (bot.py line 95):
the membership count of a team. -/
def membersCount (s : DBState) (tid : Nat) : Nat :=
  (s.members.filter (fun m => m.team_id == tid)).length

/-- `get_teams` (bot.py lines 88-90): names of the teams registered
for a scrim time — the participants list of that day (also the query
of `participants_logic`, bot.py line 646). -/
def get_teams (s : DBState) (p : String) : List String :=
  (s.teams.filter (fun t => t.scrim_time == p)).map (fun t => t.team_name)

/-- `get_team_members` (bot.py lines 105-107): member names of a
team. -/
def get_team_members (s : DBState) (tid : Nat) : List String :=
  (s.members.filter (fun m => m.team_id == tid)).map (fun m => m.member_name)

/-- The scrim-time list of `check_schedule_logic` (bot.py lines
595-596): `[row[0] for row in cursor.fetchall() if row[0]]` over
`SELECT scrim_time FROM teams WHERE team_name = ?` — the Python
truthiness test `if row[0]` drops the empty string of a base row. -/
def check_schedule_times (s : DBState) (tn : String) : List String :=
  ((s.teams.filter (fun t => t.team_name == tn)).map
    (fun t => t.scrim_time)).filter (fun x => x != "")

/-- The cancellable-dates list of `cancel_sign_up_logic` (bot.py lines
548-549): the same query and the same `if row[0]` truthiness filter,
so an empty scrim time is never offered for cancellation. -/
def cancellable_times (s : DBState) (tn : String) : List String :=
  ((s.teams.filter (fun t => t.team_name == tn)).map
    (fun t => t.scrim_time)).filter (fun x => x != "")

/-- `DatabaseManager.transaction` (database.py lines 47-56) as it
behaves at runtime: the function lacks the `@asynccontextmanager`
decorator that `get_connection` (line 11) has, so `db.transaction()`
is an async generator, and `async with db.transaction()` raises
`TypeError` before `BEGIN TRANSACTION` or any statement of the guarded
block runs.  The store is untouched and the block (`body`) is never
consulted; the commit/rollback/re-raise protocol written in the
wrapper's own body is dead code. -/
def transaction {ε α : Type} (s : DBState)
    (body : DBState → Except ε (α × DBState)) : Except PyError α × DBState :=
  (.error .typeError, s)

/-- The statement `INSERT INTO scrims (time_period) VALUES (?)`
(bot.py line 75) as written: `time_period` is declared UNIQUE (bot.py
lines 20-25), so the insert would raise an integrity error exactly
when the period is already present.  Dead code at runtime: the
enclosing `async with db.transaction()` (line 74) raises before it. -/
def insert_scrim (p : String) (s : DBState) : Except String (Unit × DBState) :=
  if s.scrims.contains p then .error "UNIQUE constraint failed"
  else .ok ((), { s with scrims := s.scrims ++ [p] })

/-- `add_scrim_time` (bot.py lines 72-78): runs the insert inside the
transaction wrapper and maps normal return to `True` and any caught
exception to `False`.  At runtime the wrapper's `TypeError` is caught
by the bare `except Exception`, so the call always returns `False`
with the store untouched — for fresh and duplicate periods alike. -/
def add_scrim_time (s : DBState) (p : String) : Bool × DBState :=
  match transaction s (insert_scrim p) with
  | (.ok _, s2) => (true, s2)
  | (.error _, s2) => (false, s2)

/-- The block of `add_team` (bot.py lines 82-86) as written: INSERT
the row and return its AUTOINCREMENT id.  Dead code at runtime: the
enclosing `async with db.transaction()` (line 81) raises before it,
and the function's only call site (line 323) does not await it. -/
def add_team_body (name scrimTime : String) (leader : Nat) (s : DBState) :
    Except String (Nat × DBState) :=
  .ok (s.nextTeamId,
    { s with teams := s.teams ++ [⟨s.nextTeamId, name, scrimTime, leader⟩],
             nextTeamId := s.nextTeamId + 1 })

/-- `add_team` (bot.py lines 80-86) as it would behave if awaited: the
broken transaction wrapper raises `TypeError` before the INSERT.  In
the program it is never even started, because its single call site
(line 323) does not await the coroutine. -/
def add_team (s : DBState) (name scrimTime : String) (leader : Nat) :
    Except PyError Nat × DBState :=
  transaction s (add_team_body name scrimTime leader)

/-- Outcomes of `create_team_logic` as reported to the user.  The
`created` outcome corresponds to the success branch at bot.py lines
322-332, which is unreachable at runtime (see `create_team_logic`). -/
inductive CreateResult
  | alreadyLeader
  | nameTaken
  | created (id : Nat)
  deriving DecidableEq

/-- Database effect of `create_team_logic` (bot.py lines 300-335) as
it behaves at runtime: the leader pre-check (line 303) is a working
synchronous query; then line 318 tests `get_team_id(team_name) is not
None` without awaiting — the un-awaited call returns a coroutine
object, which is never `None` — so the name-taken branch is taken for
every submitted name, and the un-awaited `add_team(...)` on line 323
never runs.  The store is unchanged on every path: no team is ever
created. -/
def create_team_logic (s : DBState) (leaderId : Nat) (raw : String) :
    CreateResult × DBState :=
  if s.teams.any (fun t => t.leader_id == leaderId) then (.alreadyLeader, s)
  else (.nameTaken, s)

/-- The block of `add_team_member` (bot.py lines 95-103) as written:
count the members of the team and insert the new member only when the
count is < 5 (the source comment reads "Assuming max 5 members per
team").  Dead code at runtime: the enclosing `async with
db.transaction()` (line 93) raises before it, and no handler ever
calls `add_team_member` anyway. -/
def add_team_member_body (tid : Nat) (name : String) (s : DBState) :
    Except String (Bool × DBState) :=
  if membersCount s tid < 5 then
    .ok (true,
      { s with members := s.members ++ [⟨s.nextMemberId, tid, name⟩],
               nextMemberId := s.nextMemberId + 1 })
  else .ok (false, s)

/-- `add_team_member` (bot.py lines 92-103) as it behaves at runtime:
the broken transaction wrapper raises `TypeError` at line 93, before
the count or the insert; the store is untouched.  No handler of
bot.py ever calls this function. -/
def add_team_member (s : DBState) (tid : Nat) (name : String) :
    Except PyError Bool × DBState :=
  transaction s (add_team_member_body tid name)

/-- Outcomes of `join_team_logic` as reported to the user. -/
inductive JoinResult
  | alreadyLeader
  | alreadyMember
  | noTeams
  | joined (team : String)
  deriving DecidableEq

/-- Database effect of `join_team_logic` (bot.py lines 337-379):
pre-checks read the store through the working synchronous cursor
(leader check line 340, membership check line 346, team list line
352); the select_callback (lines 362-372) assigns a Discord role and
edits the nickname but executes no SQL statement at all — in
particular it never calls `add_team_member` — so on the success path
the store is returned unchanged. -/
def join_team_logic (s : DBState) (userId : Nat) (displayName : String)
    (selected : String) : JoinResult × DBState :=
  if s.teams.any (fun t => t.leader_id == userId) then (.alreadyLeader, s)
  else if s.members.any (fun m => m.member_name == displayName) then (.alreadyMember, s)
  else if s.teams.isEmpty then (.noTeams, s)
  else (.joined selected, s)

/-- Outcomes of `quit_team_logic` as reported to the user. -/
inductive QuitResult
  | isLeader
  | left
  | notInTeam
  deriving DecidableEq

/-- Database effect of `quit_team_logic` (bot.py lines 423-442):
leaders are refused (line 425); otherwise the branch is chosen by the
user's Discord roles (`hasTeamRole`); no branch executes a DELETE, so
the store is unchanged in every case. -/
def quit_team_logic (s : DBState) (userId : Nat) (hasTeamRole : Bool) :
    QuitResult × DBState :=
  if s.teams.any (fun t => t.leader_id == userId) then (.isLeader, s)
  else if hasTeamRole then (.left, s)
  else (.notInTeam, s)

/-- The per-day block of `scrim_signup_logic.select_callback` (bot.py
lines 506-527) as written: re-read `SELECT COUNT(*) FROM teams WHERE
scrim_time = ?`; if the count is strictly below 12, insert the
registration row `(team_name, day, leader_id)` and record success
(Accepted), otherwise record the slot full.  Dead code at runtime:
the enclosing `async with db.transaction()` (line 505) raises before
it. -/
def signup_day_body (tn : String) (leaderId : Nat) (day : String) (s : DBState) :
    Except String (Bool × DBState) :=
  if regCount s day < 12 then
    .ok (true,
      { s with teams := s.teams ++ [⟨s.nextTeamId, tn, day, leaderId⟩],
               nextTeamId := s.nextTeamId + 1 })
  else .ok (false, s)

/-- The per-day transaction of `scrim_signup_logic.select_callback`
(bot.py lines 504-527) as it behaves at runtime: `async with
db.transaction()` (line 505) raises `TypeError` before the COUNT
query, so no count is read, no registration row is inserted, and
neither Accepted nor SlotFull is recorded; the store is untouched.
(The availability pre-check of `scrim_signup_logic` at line 469 uses
the same broken wrapper and fails the same way even earlier.) -/
def signup_day (s : DBState) (tn : String) (leaderId : Nat) (day : String) :
    Except PyError Bool × DBState :=
  transaction s (signup_day_body tn leaderId day)

/-- `cancel_sign_up_logic.select_callback` (bot.py lines 554-562): for
each selected date run
`DELETE FROM teams WHERE team_name = ? AND scrim_time = ?` on the
working synchronous cursor. -/
def cancel_dates (s : DBState) (tn : String) (dates : List String) : DBState :=
  dates.foldl
    (fun st d =>
      { st with teams := (st.teams.filter
          (fun t => !(t.team_name == tn && t.scrim_time == d))) })
    s

/-- Database effect of `discard_team_logic` (bot.py lines 604-639),
all on the working synchronous cursor: fetch the first `teams` row of
the leader (line 607), then `DELETE FROM teams WHERE id = ?` and
`DELETE FROM members WHERE team_id = ?` (lines 612-613); the
discarded team's name is returned for the Discord-side cleanup.  Note
the DELETE on `teams` matches the fetched row's id only. -/
def discard_team_logic (s : DBState) (leaderId : Nat) : Option String × DBState :=
  match s.teams.find? (fun t => t.leader_id == leaderId) with
  | none => (none, s)
  | some t =>
    (some t.team_name,
     { s with teams := s.teams.filter (fun r => !(r.id == t.id)),
              members := s.members.filter (fun m => !(m.team_id == t.id)) })

/-- The navigation targets attached by `participants_logic` (bot.py
lines 663-669): a Previous Day button carrying target `day_offset - 1`
is attached only when `day_offset > 0`, and a Next Day button carrying
target `day_offset + 1` only when `day_offset < 6`. -/
def participantNavTargets (off : Int) : List Int :=
  (if 0 < off then [off - 1] else []) ++ (if off < 6 then [off + 1] else [])

/-- Day offsets reachable in the participants view: the view opens at
offset 0 (bot.py line 641) and every click follows the target encoded
in one of the attached buttons (`on_interaction`, bot.py lines
229-231). -/
inductive ParticipantsReachable : Int → Prop
  | start : ParticipantsReachable 0
  | click (o o2 : Int) : ParticipantsReachable o → o2 ∈ participantNavTargets o →
      ParticipantsReachable o2

/-! ## Concrete store contents used as inputs

`scrim_bot.db` is a persistent file: its rows may predate the current
code or be written externally, so the handlers are evaluated against
explicitly given store contents. -/

/-- A store holding team ABC (id 1, leader 7) with an empty members
table; user 9 ("bob") is neither a leader nor a member. -/
def joinState : DBState := ⟨[], [⟨1, "ABC", "", 7⟩], [], 2, 1⟩

/-- A store holding team ABC (id 1, leader 7) with four membership
rows (a, b, c, d). -/
def fourMemberState : DBState :=
  ⟨[], [⟨1, "ABC", "", 7⟩],
   [⟨1, 1, "a"⟩, ⟨2, 1, "b"⟩, ⟨3, 1, "c"⟩, ⟨4, 1, "d"⟩], 2, 5⟩

/-- A store holding leader 7's team ABC with its base row (id 1) and
one registration row (id 2) for slot 05/06. -/
def discardState : DBState :=
  ⟨[], [⟨1, "ABC", "", 7⟩, ⟨2, "ABC", "05/06", 7⟩], [], 3, 1⟩

/-- A transaction body that returns normally, used to show the wrapper
raises even when its body would succeed. -/
def okBody : DBState → Except String (Unit × DBState) := fun st => .ok ((), st)

/-! ## Claim theorems -/

/-- Claim C1 (evaluation of the code at the failing input): with team
ABC's store and slot 05/06 at registration count 0 — strictly below 12
— the per-day signup transaction raises `TypeError` before reading any
count: no registration row is inserted and neither Accepted nor
SlotFull is recorded; the store comes back unchanged with the error.
The signup mechanism the claim describes never executes (the ≤ 12
bound can only hold vacuously, since signup never inserts). -/
theorem signup_records_nothing :
    regCount joinState "05/06" < 12 ∧
    signup_day joinState "ABC" 7 "05/06" =
      (Except.error PyError.typeError, joinState) :=
  ⟨by decide, rfl⟩

/-- Claim C2 (evaluation of the code at the failing input): for a
non-leader identity with no membership and an existing team,
`join_team_logic` reports success yet inserts no members row — the
members table stays empty, so the team's member list does not contain
the identity afterwards. -/
theorem join_inserts_no_membership :
    (join_team_logic joinState 9 "bob" "ABC").fst = JoinResult.joined "ABC" ∧
    (join_team_logic joinState 9 "bob" "ABC").snd.members = [] ∧
    get_team_members (join_team_logic joinState 9 "bob" "ABC").snd 1 = [] :=
  ⟨by decide, by decide, by decide⟩

/-- Claim C3 (evaluation of the code at the failing input): with team
1 already holding four membership rows, joining reports success rather
than TeamFull and inserts nothing, and `add_team_member` — the only
capacity check in the source, called by no handler — raises
`TypeError` before its count or insert, leaving the store unchanged.
No TeamFull check is ever performed. -/
theorem team_full_never_enforced :
    membersCount fourMemberState 1 = 4 ∧
    (join_team_logic fourMemberState 9 "e" "ABC").fst = JoinResult.joined "ABC" ∧
    (join_team_logic fourMemberState 9 "e" "ABC").snd.members =
      fourMemberState.members ∧
    add_team_member fourMemberState 1 "e" =
      (Except.error PyError.typeError, fourMemberState) :=
  ⟨by decide, by decide, by decide, rfl⟩

/-- Claim C4 (evaluation of the code at the failing input): discarding
leader 7's team deletes only the fetched base row (and the team's
members): the registration row for 05/06 survives, so the participants
list of that slot still names the team, the team's schedule is still
nonempty, and the leader still owns a teams row. -/
theorem discard_leaves_registrations :
    (discard_team_logic discardState 7).fst = some "ABC" ∧
    (discard_team_logic discardState 7).snd.teams = [⟨2, "ABC", "05/06", 7⟩] ∧
    get_teams (discard_team_logic discardState 7).snd "05/06" = ["ABC"] ∧
    check_schedule_times (discard_team_logic discardState 7).snd "ABC" = ["05/06"] ∧
    (discard_team_logic discardState 7).snd.teams.any
      (fun t => t.leader_id == 7) = true :=
  ⟨by decide, by decide, by decide, by decide, by decide⟩

/-- Claim C5 (evaluation of the code at the failing input): join
followed by quit leaves the membership count unchanged only because
neither operation touches the members table: the join inserts no
Membership row and the quit deletes none — both return the whole
store unchanged. -/
theorem join_quit_membership_noops :
    (join_team_logic joinState 9 "bob" "ABC").snd = joinState ∧
    (quit_team_logic (join_team_logic joinState 9 "bob" "ABC").snd 9 true).fst =
      QuitResult.left ∧
    (quit_team_logic (join_team_logic joinState 9 "bob" "ABC").snd 9 true).snd =
      joinState ∧
    membersCount (quit_team_logic (join_team_logic joinState 9 "bob" "ABC").snd
      9 true).snd 1 = membersCount joinState 1 :=
  ⟨by decide, by decide, by decide, by decide⟩

/-- Claim C6 (evaluation of the code at the failing input): the round
trip cannot start, because a signup is never accepted: with team ABC
not yet registered for 05/06 and the count strictly below 12, the
signup raises `TypeError` and inserts nothing, and the subsequent
cancel leaves the count at its original value only because nothing was
ever inserted. -/
theorem roundtrip_signup_never_accepted :
    regCount joinState "05/06" < 12 ∧
    (signup_day joinState "ABC" 7 "05/06").snd = joinState ∧
    (signup_day joinState "ABC" 7 "05/06").fst = Except.error PyError.typeError ∧
    regCount (cancel_dates (signup_day joinState "ABC" 7 "05/06").snd
      "ABC" ["05/06"]) "05/06" = regCount joinState "05/06" :=
  ⟨by decide, rfl, rfl, by decide⟩

/-- Claim C7 (evaluation of the code): for every transaction body —
even one that would return normally — `async with db.transaction()`
raises `TypeError` before the body runs: nothing is committed, the
store is simply left untouched, and no exception of the body is ever
re-raised; in particular the wrapper never produces the committed
result of the body. -/
theorem transaction_raises_before_body {ε α : Type} (s s2 : DBState) (a : α)
    (body : DBState → Except ε (α × DBState)) (hbody : body s = Except.ok (a, s2)) :
    transaction s body = (Except.error PyError.typeError, s) ∧
    transaction s body ≠ (Except.ok a, s2) := by
  exact ⟨rfl, by simp [transaction]⟩

/-- Witness for the claim C7 evaluation: a normally-returning body on
the fresh database is never committed. -/
theorem transaction_raises_before_body_witness :
    transaction emptyDB okBody = (Except.error PyError.typeError, emptyDB) ∧
    transaction emptyDB okBody ≠ (Except.ok (), emptyDB) :=
  transaction_raises_before_body emptyDB emptyDB () okBody rfl

/-- Claim C8 (evaluation of the code): `add_scrim_time` returns
`false` with the store untouched on every input — for fresh periods
just as for duplicates — because the `TypeError` of the broken
transaction wrapper is swallowed by the bare except before any INSERT;
a fresh period is never inserted and `true` is never returned.  (Only
the claim's never-raises half holds: the function is total.) -/
theorem add_scrim_time_always_false (s : DBState) (p : String) :
    add_scrim_time s p = (false, s) :=
  rfl

/-- Claim C9: the day offset reachable through the Previous Day /
Next Day buttons of the participants view always stays between 0 and
6 inclusive, so navigation never leaves the 7-day window. -/
theorem participants_offset_bounds (o : Int) (h : ParticipantsReachable o) :
    0 ≤ o ∧ o ≤ 6 := by
  induction h with
  | start => exact ⟨le_refl 0, by norm_num⟩
  | click o o2 _ hmem ih =>
    obtain ⟨h1, h2⟩ := ih
    simp only [participantNavTargets, List.mem_append] at hmem
    rcases hmem with hm | hm
    · by_cases hc : 0 < o
      · simp [hc] at hm
        omega
      · simp [hc] at hm
    · by_cases hc : o < 6
      · simp [hc] at hm
        omega
      · simp [hc] at hm

/-- Witness for claim C9 at the initial offset. -/
theorem participants_offset_bounds_witness : (0 : Int) ≤ 0 ∧ (0 : Int) ≤ 6 :=
  participants_offset_bounds 0 ParticipantsReachable.start

/-- Claim C10 (evaluation of the code): `create_team_logic` never
creates a team — every run that passes the leader check answers
name-taken (the un-awaited `get_team_id` coroutine is never `None`)
and the un-awaited `add_team` never inserts, so the store is unchanged
on every path and no base row with an empty scrim time (or any other)
ever comes into being through it.  The filter halves of the claim are
faithful: the empty string is never listed as a scheduled slot and is
never offered for cancellation. -/
theorem create_never_creates (s : DBState) (l : Nat) (raw tn : String) :
    (create_team_logic s l raw).snd = s ∧
    (∀ i, (create_team_logic s l raw).fst ≠ CreateResult.created i) ∧
    "" ∉ check_schedule_times s tn ∧ "" ∉ cancellable_times s tn := by
  refine ⟨?_, ?_, ?_, ?_⟩
  · unfold create_team_logic
    split <;> rfl
  · intro i
    unfold create_team_logic
    split <;> simp
  · simp [check_schedule_times, List.mem_filter]
  · simp [cancellable_times, List.mem_filter]
